import Mathlib

/-!
Verification of the RPC-over-pub/sub correlation layer of `go-pkgs`
(rabbitmq and kafka bindings), as a shallow embedding of the Go sources:

* `src/rabbitmq/client/client.go`  — `Client.RemoteCall`, `getCall`,
  `addCall`, `deleteCall`, `Shutdown`
* `src/rabbitmq/server/server.go`  — `Server.serveCall`, `publish`, `Shutdown`
* `src/kafka/server/server.go`     — `Server.serveCall`, `publish`, `Shutdown`
* `src/kafka` client (`src/kafka/errors.go` concatenation) —
  `Client.RemoteCall`, `handleResponse`, `Shutdown`
* `src/unnamed/part_010` (`package rabbitmq`) — `Connection.AttemptConnect`

Concurrency is resolved by an explicit environment: each embedded operation
takes the outcomes of its interactions (channel states, publish results,
select winners, unmarshal results) as parameters and is otherwise a direct
transcription of the Go control flow.  A Go runtime panic (close of an
already-closed channel) is modelled as `Except.error ()`.
-/

set_option maxHeartbeats 1000000

namespace GoPkgs

/- ## Status and sentinel constants -/

namespace Kafka

/-- `Success` status constant, src/kafka/errors.go line 17. -/
def Success : String := "success"

/-- Message of `kafka.ErrTimeout`, src/kafka/errors.go line 7. -/
def ErrTimeoutMsg : String := "kafka operation timeout"

/-- Message of `kafka.ErrBadHandler`, src/kafka/errors.go line 9. -/
def ErrBadHandlerMsg : String := "kafka unknown handler"

/-- Message of `kafka.ErrInternalServer`, src/kafka/errors.go line 10. -/
def ErrInternalServerMsg : String := "kafka internal server error"

end Kafka

namespace Rmqrpc

/-- Modelled from the spec: the rabbitmq `rmq_rpc` package's `Success` status
constant is not under src/ (only the connection wrapper `src/unnamed/part_010`
is); spec section 6 fixes the response status vocabulary to
`success | bad-handler | internal-error`. -/
def Success : String := "success"

/-- Modelled from the spec: message of the rabbitmq `rmq_rpc` package's
`ErrBadHandler`, whose source file is not under src/; spec section 6 names the
status `bad-handler`.  The rabbitmq server publishes `ErrBadHandler.Error()`
as the status and the client compares the received status against the same
constant, so only its distinctness from the other statuses is relevant. -/
def ErrBadHandlerMsg : String := "bad-handler"

/-- Modelled from the spec: message of the rabbitmq `rmq_rpc` package's
`ErrInternalServer` (source file not under src/); spec section 6 names the
status `internal-error`. -/
def ErrInternalServerMsg : String := "internal-error"

end Rmqrpc

/- ## Generic association-list registry (Go `map[string]...` with one lock) -/

/-- Lookup in an association list, first match wins (Go map indexing / the
kafka header scan that `break`s on the first matching key). -/
def lookupA {α : Type} : List (String × α) → String → Option α
  | [], _ => none
  | p :: rest, k => if p.1 = k then some p.2 else lookupA rest k

/-- Point update of an association list, keys unchanged (Go map assignment to
an existing key). -/
def updateA {α : Type} (reg : List (String × α)) (k : String) (v : α) :
    List (String × α) :=
  reg.map (fun p => if p.1 = k then (p.1, v) else p)

/-- The key set (as a list) of a registry. -/
def keysA {α : Type} (reg : List (String × α)) : List String :=
  reg.map Prod.fst

theorem keysA_updateA {α : Type} (reg : List (String × α)) (k : String) (v : α) :
    keysA (updateA reg k v) = keysA reg := by
  induction reg with
  | nil => rfl
  | cons p rest ih =>
    simp only [keysA, updateA, List.map_cons] at *
    by_cases h : p.1 = k <;> simp [h, ih]

theorem lookupA_updateA_self {α : Type} (reg : List (String × α)) (k : String)
    (v : α) (w : α) (h : lookupA reg k = some w) :
    lookupA (updateA reg k v) k = some v := by
  induction reg with
  | nil => simp [lookupA] at h
  | cons p rest ih =>
    by_cases hp : p.1 = k
    · simp [lookupA, updateA, hp]
    · simp only [lookupA, updateA, List.map_cons, if_neg hp] at *
      exact ih h

/- ## RabbitMQ data model -/

/-- The fields of `amqp.Delivery` read by this layer: `CorrelationId`,
`Type` (handler name on requests, status on responses), `Body`, `ReplyTo`.
The opaque byte payload is modelled as a `String`. -/
structure Delivery where
  correlationId : String
  type : String
  body : String
  replyTo : String
deriving DecidableEq

/-- `pendingCall` of src/rabbitmq/client/client.go lines 36-40: `doneClosed`
records whether the one-shot `done` channel has been closed. -/
structure PendingCall where
  doneClosed : Bool
  status : String
  body : String
deriving DecidableEq

/-- Shallow embedding of `Client.getCall` (src/rabbitmq/client/client.go
lines 220-232): look the correlation id up under the read lock; if absent,
return; otherwise write `status`/`body` from the delivery and `close(call.done)`.
Closing an already-closed Go channel is a runtime panic, modelled as
`Except.error ()`. -/
def getCall (d : Delivery) (reg : List (String × PendingCall)) :
    Except Unit (List (String × PendingCall)) :=
  match lookupA reg d.correlationId with
  | none => .ok reg
  | some call =>
    if call.doneClosed then .error ()
    else .ok (updateA reg d.correlationId ⟨true, d.type, d.body⟩)

theorem getCall_keysA (d : Delivery) (reg reg' : List (String × PendingCall))
    (h : getCall d reg = .ok reg') : keysA reg' = keysA reg := by
  unfold getCall at h
  cases hl : lookupA reg d.correlationId with
  | none =>
    rw [hl] at h
    cases h
    rfl
  | some call =>
    rw [hl] at h
    by_cases hd : call.doneClosed
    · simp [hd] at h
    · simp only [hd, if_neg, Bool.false_eq_true, if_false] at h
      cases h
      exact keysA_updateA reg d.correlationId _

/- ## RabbitMQ client `RemoteCall` -/

/-- Which arm of the timeout-or-completion `select` fires
(src/rabbitmq/client/client.go lines 159-163), and, when the consumer loop
signalled first, the status and body it stored into the pending call. -/
inductive WaitOutcome where
  | timeout
  | delivered (status : String) (body : String)
deriving DecidableEq

/-- The errors `Client.RemoteCall` can return: the sentinels, a wrapped
`c.publish` error (request marshal failure or transport publish failure,
client.go lines 97-123 and 149-152) and a wrapped response `json.Unmarshal`
error (lines 166-169). -/
inductive RCError where
  | connectionClosed
  | timeout
  | badHandler
  | internalServer
  | publishErr (msg : String)
  | unmarshalErr (msg : String)
deriving DecidableEq

/-- Counts of the side-effecting operations `RemoteCall` performs:
`c.publish` invocations, `c.addCall` registry inserts, `c.deleteCall`
registry deletes, and whether the caller's response slot was written. -/
structure Effects where
  publishes : Nat
  inserts : Nat
  deletes : Nat
  responseWritten : Bool
deriving DecidableEq

/-- The resolution of the concurrent interactions of one `RemoteCall`
invocation: whether `c.stop` is closed at entry and again after the grace
sleep (lines 136-145), the result of `c.publish` (`none` = success), which
select arm fires, and the result of `json.Unmarshal` per body. -/
structure RemoteCallEnv where
  stopClosed : Bool
  stopClosedAfterWait : Bool
  publishError : Option String
  wait : WaitOutcome
  unmarshalError : String → Option String

/-- Shallow embedding of `Client.RemoteCall` (src/rabbitmq/client/client.go
lines 135-183).  Control flow transcribed: the double stop check; publish
with early return on failure (before `addCall`); `addCall` with deferred
`deleteCall`; the timeout/completion select; then the status dispatch —
`Success` unmarshals the body, the two error statuses map to their
sentinels, any other status falls through to a `nil` return without
touching the response slot. -/
def remoteCall (env : RemoteCallEnv) : Option RCError × Effects :=
  if env.stopClosed && env.stopClosedAfterWait then
    (some .connectionClosed, ⟨0, 0, 0, false⟩)
  else
    match env.publishError with
    | some m => (some (.publishErr m), ⟨1, 0, 0, false⟩)
    | none =>
      match env.wait with
      | .timeout => (some .timeout, ⟨1, 1, 1, false⟩)
      | .delivered status body =>
        if status = Rmqrpc.Success then
          match env.unmarshalError body with
          | some m => (some (.unmarshalErr m), ⟨1, 1, 1, false⟩)
          | none => (none, ⟨1, 1, 1, true⟩)
        else if status = Rmqrpc.ErrBadHandlerMsg then
          (some .badHandler, ⟨1, 1, 1, false⟩)
        else if status = Rmqrpc.ErrInternalServerMsg then
          (some .internalServer, ⟨1, 1, 1, false⟩)
        else
          (none, ⟨1, 1, 1, false⟩)

/- ## RabbitMQ server -/

/-- Result of `json.Marshal` on the value returned by a handler. -/
inductive MarshalResult where
  | ok (body : String)
  | err (msg : String)
deriving DecidableEq

/-- Outcome of one `callHandler(d)` invocation: either a non-nil error, or a
returned value abstracted by the result of marshalling it. -/
inductive HandlerOutcome where
  | failure (errMsg : String)
  | success (marshal : MarshalResult)
deriving DecidableEq

/-- One `s.publish` call of the rabbitmq server
(src/rabbitmq/server/server.go lines 130-141): exchange `d.ReplyTo`,
correlation id copied from the request, `Type` carrying the status, body
possibly nil. -/
structure Published where
  exchange : String
  correlationId : String
  status : String
  body : Option String
deriving DecidableEq

/-- Observable result of one rabbitmq `serveCall`: what was published (if
anything), whether a handler was invoked, and what was logged. -/
structure ServeResult where
  published : Option Published
  handlerInvoked : Bool
  logs : List String
deriving DecidableEq

/-- Shallow embedding of rabbitmq `Server.serveCall`
(src/rabbitmq/server/server.go lines 105-128).  Router miss publishes a
bad-handler reply; a handler error publishes an internal-error reply with
nil body and logs the error; a marshal failure is logged but the code then
falls through to `s.publish(d, body, rmqrpc.Success)` with the nil body of
the failed marshal; marshal success publishes the body under `Success`. -/
def serveCall (router : List (String × (Delivery → HandlerOutcome)))
    (d : Delivery) : ServeResult :=
  match lookupA router d.type with
  | none =>
    ⟨some ⟨d.replyTo, d.correlationId, Rmqrpc.ErrBadHandlerMsg, none⟩,
     false, []⟩
  | some callHandler =>
    match callHandler d with
    | .failure e =>
      ⟨some ⟨d.replyTo, d.correlationId, Rmqrpc.ErrInternalServerMsg, none⟩,
       true, ["rmq_rpc server - Server - serveCall - callHandler: " ++ e]⟩
    | .success (.err e) =>
      ⟨some ⟨d.replyTo, d.correlationId, Rmqrpc.Success, none⟩,
       true, ["rmq_rpc server - Server - serveCall - json.Marshal: " ++ e]⟩
    | .success (.ok body) =>
      ⟨some ⟨d.replyTo, d.correlationId, Rmqrpc.Success, some body⟩,
       true, []⟩

/- ## Kafka server -/

/-- The fields of `kgo.Record` read by this layer. -/
structure KRecord where
  headers : List (String × String)
  value : String
deriving DecidableEq

/-- Header extraction of kafka `serveCall` (src/kafka/server/server.go lines
111-121): a `switch` inside a range loop without `break`, so the last
occurrence of a key wins and a missing key leaves the zero value `""`. -/
def extractHeader (headers : List (String × String)) (key : String) : String :=
  headers.foldl (fun acc h => if h.1 = key then h.2 else acc) ""

/-- One `s.publish` of the kafka server (src/kafka/server/server.go lines
152-172): a record on the reply topic, keyed by the correlation id, with
`correlation_id` and `status` headers. -/
structure KPublished where
  topic : String
  key : String
  value : Option String
  headers : List (String × String)
deriving DecidableEq

/-- Builds the reply record exactly as kafka `Server.publish` does. -/
def kafkaPublish (replyTopic corrID : String) (body : Option String)
    (status : String) : KPublished :=
  ⟨replyTopic, corrID, body,
   [("correlation_id", corrID), ("status", status)]⟩

/-- Observable result of one kafka `serveCall`. -/
structure KServeResult where
  published : Option KPublished
  handlerInvoked : Bool
  logs : List String
deriving DecidableEq

/-- Shallow embedding of kafka `Server.serveCall`
(src/kafka/server/server.go lines 109-150): extract the three request
headers; if any is missing, log and return without publishing; router miss
publishes bad-handler; handler error and marshal failure both publish
internal-error with nil body and log the cause; success publishes the body
under `Success`. -/
def kafkaServeCall (router : List (String × (KRecord → HandlerOutcome)))
    (r : KRecord) : KServeResult :=
  let handler := extractHeader r.headers "handler"
  let corrID := extractHeader r.headers "correlation_id"
  let replyTopic := extractHeader r.headers "reply_topic"
  if handler = "" ∨ corrID = "" ∨ replyTopic = "" then
    ⟨none, false,
     ["kafka_rpc server - Server - serveCall - missing required headers"]⟩
  else
    match lookupA router handler with
    | none =>
      ⟨some (kafkaPublish replyTopic corrID none Kafka.ErrBadHandlerMsg),
       false, []⟩
    | some callHandler =>
      match callHandler r with
      | .failure e =>
        ⟨some (kafkaPublish replyTopic corrID none Kafka.ErrInternalServerMsg),
         true, ["kafka_rpc server - Server - serveCall - callHandler: " ++ e]⟩
      | .success (.err e) =>
        ⟨some (kafkaPublish replyTopic corrID none Kafka.ErrInternalServerMsg),
         true, ["kafka_rpc server - Server - serveCall - json.Marshal: " ++ e]⟩
      | .success (.ok body) =>
        ⟨some (kafkaPublish replyTopic corrID (some body) Kafka.Success),
         true, []⟩

/- ## Kafka client -/

/-- `pendingCall` of the kafka client: `done` closure flag, status, body and
the `err` field (declared in the struct; nothing under src/ ever assigns it,
so it stays `none` for entries created by `addCall`). -/
structure KPendingCall where
  doneClosed : Bool
  status : String
  body : String
  err : Option String
deriving DecidableEq

/-- A freshly registered pending call: `&pendingCall{done: make(chan struct)}`
with zero-valued `status`, `body`, `err`. -/
def freshKCall : KPendingCall := ⟨false, "", "", none⟩

/-- Shallow embedding of kafka `Client.handleResponse` (client source in
src/kafka/errors.go concatenation, lines 252-285): scan the headers for the
first `correlation_id` (the loop `break`s on the first match, so first
occurrence wins); an empty or absent id returns; a registry miss returns;
otherwise the status defaults to `Success` when no `status` header exists
(first occurrence wins), the status/body are stored and `close(call.done)`
fires — a runtime panic (`.error ()`) when `done` is already closed. -/
def handleResponse (r : KRecord) (reg : List (String × KPendingCall)) :
    Except Unit (List (String × KPendingCall)) :=
  let corrID := (lookupA r.headers "correlation_id").getD ""
  if corrID = "" then .ok reg
  else
    match lookupA reg corrID with
    | none => .ok reg
    | some call =>
      let status := (lookupA r.headers "status").getD Kafka.Success
      if call.doneClosed then .error ()
      else .ok (updateA reg corrID ⟨true, status, r.value, call.err⟩)

/-- The errors kafka `Client.RemoteCall` can return (src/kafka/errors.go
concatenation, lines 173-225): its own `ErrConnectionClosed` sentinel; a
wrapped `c.publish` error (request marshal or `ProduceSync` failure);
`kafka.ErrTimeout` when the per-call deadline fires; the raw
`timeoutCtx.Err()` (`ctxErr`, e.g. context.Canceled) returned when the
caller's externally supplied context is canceled before the deadline (line
200); the raw stored `call.err` value; the `badHandler`/`internalServer`
sentinels; and a wrapped response `json.Unmarshal` error. -/
inductive KRCError where
  | connectionClosed
  | timeout
  | ctxErr (msg : String)
  | callErr (msg : String)
  | badHandler
  | internalServer
  | publishErr (msg : String)
  | unmarshalErr (msg : String)
deriving DecidableEq

/-- Shallow embedding of the tail of kafka `Client.RemoteCall` after the
completion signal fires (src/kafka/errors.go concatenation, lines 204-224):
a stored `call.err` is returned as-is; `Success` status unmarshals the body
into the caller's response slot (the returned `Bool` records whether the
slot was written); the two error statuses map to their sentinels; any other
status returns `nil` without writing the slot. -/
def kafkaDecode (call : KPendingCall)
    (unmarshalError : String → Option String) : Option KRCError × Bool :=
  match call.err with
  | some e => (some (.callErr e), false)
  | none =>
    if call.status = Kafka.Success then
      match unmarshalError call.body with
      | some m => (some (.unmarshalErr m), false)
      | none => (none, true)
    else if call.status = Kafka.ErrBadHandlerMsg then (some .badHandler, false)
    else if call.status = Kafka.ErrInternalServerMsg then
      (some .internalServer, false)
    else (none, false)

/-- Which arm of the kafka client's completion `select` fires
(src/kafka/errors.go concatenation, lines 195-202): the per-call deadline
(`timeoutCtx.Err() == context.DeadlineExceeded`), an external cancellation of
the caller's context (any other `timeoutCtx.Err()`, returned raw), or the
completion signal with the pending call's contents at that moment. -/
inductive KWaitOutcome where
  | timeout
  | cancelled (msg : String)
  | delivered (call : KPendingCall)
deriving DecidableEq

/-- The resolution of the concurrent interactions of one kafka `RemoteCall`
invocation: whether `c.stop` is closed at entry, the result of `c.publish`
(`none` = success), which select arm fires, and the result of
`json.Unmarshal` per body. -/
structure KRemoteCallEnv where
  stopClosed : Bool
  publishError : Option String
  wait : KWaitOutcome
  unmarshalError : String → Option String

/-- Shallow embedding of kafka `Client.RemoteCall` (src/kafka/errors.go
concatenation, lines 173-225).  Control flow transcribed: the stop check
returning `ErrConnectionClosed` immediately; publish with early return on
failure (before `addCall`); `addCall` with deferred `deleteCall`; the
deadline/cancellation/completion select — a deadline returns `ErrTimeout`
while any other context error is returned raw (line 200) — and on
completion the `kafkaDecode` status dispatch.  Effects count `c.publish`,
`c.addCall`, `c.deleteCall` invocations and whether the caller's response
slot was written. -/
def kafkaRemoteCall (env : KRemoteCallEnv) : Option KRCError × Effects :=
  if env.stopClosed then (some .connectionClosed, ⟨0, 0, 0, false⟩)
  else
    match env.publishError with
    | some m => (some (.publishErr m), ⟨1, 0, 0, false⟩)
    | none =>
      match env.wait with
      | .timeout => (some .timeout, ⟨1, 1, 1, false⟩)
      | .cancelled m => (some (.ctxErr m), ⟨1, 1, 1, false⟩)
      | .delivered call =>
        ((kafkaDecode call env.unmarshalError).1,
         ⟨1, 1, 1, (kafkaDecode call env.unmarshalError).2⟩)

/- ## Connection retry (src/unnamed/part_010) -/

/-- The retry loop of `Connection.AttemptConnect` (src/unnamed/part_010 lines
66-75): `for i := c.Attempts; i > 0; i--`, with the loop-carried `err`
variable.  `connect k` is the outcome of the `(k+1)`-st `c.connect()`
invocation (`none` = success).  Arguments: current `err`, remaining
iterations, number of `connect` invocations so far; returns the final `err`
and the total invocation count. -/
def attemptConnectLoop (connect : Nat → Option String) :
    Option String → Nat → Nat → Option String × Nat
  | err, 0, calls => (err, calls)
  | _, i + 1, calls =>
    match connect calls with
    | none => (none, calls + 1)
    | some e => attemptConnectLoop connect (some e) i (calls + 1)

/-- The wrapping `AttemptConnect` applies to a final non-nil `err`
(src/unnamed/part_010 line 78). -/
def connectErrMsg (e : String) : String :=
  "rmq_rpc - AttemptConnect - c.connect: " ++ e

/-- Shallow embedding of `Connection.AttemptConnect` (src/unnamed/part_010
lines 66-82).  `attempts` is the Go `int` field `Attempts`; a non-positive
value runs the loop zero times, leaving `err` at its nil zero value, so the
function reports success with zero `connect` invocations. -/
def AttemptConnect (attempts : Int) (connect : Nat → Option String) :
    Option String × Nat :=
  let r := attemptConnectLoop connect none attempts.toNat 0
  (r.1.map connectErrMsg, r.2)

/- ## Shutdown -/

/-- The channel state a `Shutdown` call observes: whether the error channel
is closed (terminal failure happened), whether a receive on it can proceed
immediately (a pending send), whether `stop` is already closed, and whether
the transport connection was closed. -/
structure ShutdownState where
  errorClosed : Bool
  errorReady : Bool
  stopClosed : Bool
  connClosed : Bool
deriving DecidableEq

/-- Shallow embedding of rabbitmq `Client.Shutdown`
(src/rabbitmq/client/client.go lines 255-271; `Server.Shutdown` of
src/rabbitmq/server/server.go lines 169-185 is identical in shape): a
receive-or-default select on the error channel returns nil when the receive
can proceed; otherwise `close(c.stop)` executes — closing an already-closed
channel is a runtime panic (`.error ()`) — followed by the drain sleep and
the transport close, whose error is wrapped.  `connCloseError` is the
result of `c.conn.Connection.Close()`. -/
def clientShutdown (connCloseError : Option String) (s : ShutdownState) :
    Except Unit (Option String × ShutdownState) :=
  if s.errorClosed || s.errorReady then .ok (none, s)
  else if s.stopClosed then .error ()
  else
    .ok (connCloseError.map
          (fun e => "rmq_rpc client - Client - Shutdown - c.Connection.Close: " ++ e),
        { s with stopClosed := true, connClosed := true })

/-- Shallow embedding of kafka `Server.Shutdown` (src/kafka/server/server.go
lines 183-194; the kafka `Client.Shutdown` is identical in shape): same
receive-or-default select, then `close(s.stop)` — a runtime panic when
`stop` is already closed — then `s.conn.Close()`, which returns no error. -/
def kafkaShutdown (s : ShutdownState) :
    Except Unit (Option String × ShutdownState) :=
  if s.errorClosed || s.errorReady then .ok (none, s)
  else if s.stopClosed then .error ()
  else .ok (none, { s with stopClosed := true, connClosed := true })

/- ## Theorems -/

theorem attemptConnectLoop_succ_some (connect : Nat → Option String)
    (err0 : Option String) (i calls : Nat) (e : String)
    (he : connect calls = some e) :
    attemptConnectLoop connect err0 (i + 1) calls =
      attemptConnectLoop connect (some e) i (calls + 1) := by
  simp only [attemptConnectLoop, he]

theorem attemptConnectLoop_succ_none (connect : Nat → Option String)
    (err0 : Option String) (i calls : Nat) (he : connect calls = none) :
    attemptConnectLoop connect err0 (i + 1) calls = (none, calls + 1) := by
  simp only [attemptConnectLoop, he]

theorem attemptConnectLoop_allFail (connect : Nat → Option String) :
    ∀ (i calls : Nat) (err0 : Option String), 0 < i →
      (∀ k, k < i → (connect (calls + k)).isSome) →
      attemptConnectLoop connect err0 i calls =
        (connect (calls + i - 1), calls + i) := by
  intro i
  induction i with
  | zero => intro calls err0 h; exact absurd h (lt_irrefl 0)
  | succ i ih =>
    intro calls err0 _ hall
    have h0 : (connect (calls + 0)).isSome := hall 0 (Nat.succ_pos i)
    rw [Nat.add_zero] at h0
    obtain ⟨e, he⟩ := Option.isSome_iff_exists.mp h0
    cases i with
    | zero => simp [attemptConnectLoop, he]
    | succ j =>
      have hall' : ∀ k, k < j + 1 → (connect (calls + 1 + k)).isSome := by
        intro k hk
        have h := hall (k + 1) (by omega)
        rwa [show calls + (k + 1) = calls + 1 + k by omega] at h
      have hrec := ih (calls + 1) (some e) (Nat.succ_pos j) hall'
      rw [attemptConnectLoop_succ_some connect err0 (j + 1) calls e he, hrec]
      congr 1
      · congr 1
        omega
      · omega

theorem attemptConnectLoop_firstSuccess (connect : Nat → Option String) :
    ∀ (i calls : Nat) (err0 : Option String) (k : Nat), k < i →
      connect (calls + k) = none →
      (∀ j, j < k → (connect (calls + j)).isSome) →
      attemptConnectLoop connect err0 i calls = (none, calls + k + 1) := by
  intro i
  induction i with
  | zero => intro calls err0 k hk; exact absurd hk (Nat.not_lt_zero k)
  | succ i ih =>
    intro calls err0 k hk hnone hprev
    cases k with
    | zero =>
      rw [Nat.add_zero] at hnone
      simp [attemptConnectLoop, hnone]
    | succ k' =>
      have h0 : (connect (calls + 0)).isSome := hprev 0 (Nat.succ_pos k')
      rw [Nat.add_zero] at h0
      obtain ⟨e, he⟩ := Option.isSome_iff_exists.mp h0
      have hrec := ih (calls + 1) (some e) k' (by omega)
        (by rwa [show calls + 1 + k' = calls + (k' + 1) by omega])
        (fun j hj => by
          have h := hprev (j + 1) (by omega)
          rwa [show calls + (j + 1) = calls + 1 + j by omega] at h)
      rw [attemptConnectLoop_succ_some connect err0 i calls e he, hrec]
      congr 1
      omega

/-- C2 (confirmed): for `attempts ≤ 0`, `AttemptConnect` reports success
(`none`) without invoking `connect` at all; for `attempts > 0` it invokes
`connect` once per remaining attempt until success or exhaustion — if all
`attempts` invocations fail it returns the wrapped cause of the last
invocation, having invoked `connect` exactly `attempts` times, and if the
first success is the `(k+1)`-st invocation it returns success having invoked
`connect` exactly `k + 1` times. -/
theorem AttemptConnect_spec (attempts : Int) (connect : Nat → Option String) :
    (attempts ≤ 0 → AttemptConnect attempts connect = (none, 0)) ∧
    (0 < attempts → (∀ k, k < attempts.toNat → (connect k).isSome) →
      ∃ e, connect (attempts.toNat - 1) = some e ∧
        AttemptConnect attempts connect =
          (some (connectErrMsg e), attempts.toNat)) ∧
    (∀ k, k < attempts.toNat → connect k = none →
      (∀ j, j < k → (connect j).isSome) →
      AttemptConnect attempts connect = (none, k + 1)) := by
  refine ⟨?_, ?_, ?_⟩
  · intro h
    have hz : attempts.toNat = 0 := Int.toNat_eq_zero.mpr h
    simp [AttemptConnect, hz, attemptConnectLoop]
  · intro hpos hall
    have hpos' : 0 < attempts.toNat := by omega
    have hloop := attemptConnectLoop_allFail connect attempts.toNat 0 none hpos'
      (fun k hk => by simpa using hall k hk)
    obtain ⟨e, he⟩ :=
      Option.isSome_iff_exists.mp (hall (attempts.toNat - 1) (by omega))
    refine ⟨e, he, ?_⟩
    rw [Nat.zero_add] at hloop
    simp [AttemptConnect, hloop, he]
  · intro k hk hnone hprev
    have hloop := attemptConnectLoop_firstSuccess connect attempts.toNat 0 none
      k hk (by simpa using hnone) (fun j hj => by simpa using hprev j hj)
    rw [Nat.zero_add] at hloop
    simp [AttemptConnect, hloop]

/-- Witness for C2: the theorem applied at `attempts = -3` — the quirk path:
success is reported with zero `connect` invocations. -/
theorem AttemptConnect_spec_witness :
    AttemptConnect (-3) (fun _ => some "dial tcp: connection refused") =
      (none, 0) :=
  (AttemptConnect_spec (-3)
    (fun _ => some "dial tcp: connection refused")).1 (by decide)

/-- C3 (code_bug): the claim — calling `Shutdown()` twice in sequence with no
intervening terminal failure returns nil both times and does not panic — is
what the spec demands (sections 4.1 and 8) and what the repository's own
"Test double shutdown" subtests expect, but the code panics: on the second
call the error channel is still open and empty, so the select takes its
default branch and executes `close` on the already-closed `stop` channel, a
runtime panic.  Evaluated here on the fresh healthy state for both the
rabbitmq and kafka embeddings: the first call returns a nil error and closes
`stop`, the second panics. -/
theorem shutdown_second_call_panics :
    clientShutdown none ⟨false, false, false, false⟩ =
      .ok (none, ⟨false, false, true, true⟩) ∧
    clientShutdown none ⟨false, false, true, true⟩ = .error () ∧
    kafkaShutdown ⟨false, false, false, false⟩ =
      .ok (none, ⟨false, false, true, true⟩) ∧
    kafkaShutdown ⟨false, false, true, true⟩ = .error () :=
  ⟨rfl, rfl, rfl, rfl⟩

/-- C1 fails as stated: on the publish-failure exit path `RemoteCall`
returns before `addCall` runs (client.go lines 149-157), so the pending call
is never inserted into — nor deleted from — the correlation registry: one
publish attempt, zero inserts, zero deletes. -/
theorem c1_counterexample :
    (remoteCall ⟨false, false, some "amqp: channel not open",
        WaitOutcome.timeout, fun _ => none⟩).2.publishes = 1 ∧
    (remoteCall ⟨false, false, some "amqp: channel not open",
        WaitOutcome.timeout, fun _ => none⟩).2.inserts ≠ 1 ∧
    (remoteCall ⟨false, false, some "amqp: channel not open",
        WaitOutcome.timeout, fun _ => none⟩).2.deletes ≠ 1 :=
  ⟨rfl, by decide, by decide⟩

/-- C1 (amended): per `RemoteCall` invocation — on the shutdown path there is
no publish and no registry traffic; on the publish-failure path there is one
publish attempt but no registry insert and no delete; on every path where the
publish succeeds (success, bad-handler, internal-error, unknown status,
unmarshal failure, timeout) there is exactly one publish, exactly one
registry insert and exactly one delete; and the consumer loop's `getCall`
only reads and signals — whenever it completes without panicking it leaves
the registry's key set unchanged, never deleting an entry. -/
theorem remoteCall_effects (env : RemoteCallEnv) :
    (env.stopClosed = true → env.stopClosedAfterWait = true →
      (remoteCall env).2 = ⟨0, 0, 0, false⟩) ∧
    ((env.stopClosed && env.stopClosedAfterWait) = false →
      (∀ m, env.publishError = some m →
        (remoteCall env).2 = ⟨1, 0, 0, false⟩) ∧
      (env.publishError = none →
        (remoteCall env).2.publishes = 1 ∧ (remoteCall env).2.inserts = 1 ∧
          (remoteCall env).2.deletes = 1)) ∧
    (∀ d reg reg', getCall d reg = .ok reg' → keysA reg' = keysA reg) := by
  refine ⟨?_, ?_, fun d reg reg' h => getCall_keysA d reg reg' h⟩
  · intro h1 h2
    simp [remoteCall, h1, h2]
  · intro hne
    constructor
    · intro m hm
      simp [remoteCall, hne, hm]
    · intro hp
      cases hw : env.wait with
      | timeout => simp [remoteCall, hne, hp, hw]
      | delivered status body =>
        by_cases h1 : status = Rmqrpc.Success
        · cases hu : env.unmarshalError body <;>
            simp [remoteCall, hne, hp, hw, h1, hu]
        · by_cases h2 : status = Rmqrpc.ErrBadHandlerMsg
          · simp +decide [remoteCall, hne, hp, hw, h1, h2]
          · by_cases h3 : status = Rmqrpc.ErrInternalServerMsg <;>
              simp +decide [remoteCall, hne, hp, hw, h1, h2, h3]

/-- Witness for C1's amended theorem at a concrete environment: a call that
publishes successfully and then times out performs exactly one publish, one
registry insert and one registry delete. -/
theorem remoteCall_effects_witness :
    (remoteCall ⟨false, false, none, WaitOutcome.timeout,
        fun _ => none⟩).2.publishes = 1 ∧
    (remoteCall ⟨false, false, none, WaitOutcome.timeout,
        fun _ => none⟩).2.inserts = 1 ∧
    (remoteCall ⟨false, false, none, WaitOutcome.timeout,
        fun _ => none⟩).2.deletes = 1 :=
  ((remoteCall_effects ⟨false, false, none, WaitOutcome.timeout,
      fun _ => none⟩).2.1 rfl).2 rfl

/-- C4 fails as stated in both bindings: when `c.publish` fails, the
rabbitmq `RemoteCall` returns the wrapped transport error straight to the
caller (client.go lines 149-152), which is none of the four sentinel
errors; and when the caller's externally supplied context is canceled
before the per-call deadline, the kafka `RemoteCall` returns the raw
`timeoutCtx.Err()` (src/kafka/errors.go concatenation, line 200), likewise
none of the sentinels. -/
theorem c4_counterexample :
    (remoteCall ⟨false, false,
        some "c.Channel.Publish: channel/connection is not open",
        WaitOutcome.timeout, fun _ => none⟩).1 =
      some (RCError.publishErr
        "c.Channel.Publish: channel/connection is not open") ∧
    RCError.publishErr "c.Channel.Publish: channel/connection is not open" ≠
      RCError.timeout ∧
    RCError.publishErr "c.Channel.Publish: channel/connection is not open" ≠
      RCError.connectionClosed ∧
    RCError.publishErr "c.Channel.Publish: channel/connection is not open" ≠
      RCError.badHandler ∧
    RCError.publishErr "c.Channel.Publish: channel/connection is not open" ≠
      RCError.internalServer ∧
    (kafkaRemoteCall ⟨false, none, KWaitOutcome.cancelled "context canceled",
        fun _ => none⟩).1 = some (KRCError.ctxErr "context canceled") ∧
    KRCError.ctxErr "context canceled" ≠ KRCError.timeout ∧
    KRCError.ctxErr "context canceled" ≠ KRCError.connectionClosed ∧
    KRCError.ctxErr "context canceled" ≠ KRCError.badHandler ∧
    KRCError.ctxErr "context canceled" ≠ KRCError.internalServer :=
  ⟨rfl, by decide, by decide, by decide, by decide,
   rfl, by decide, by decide, by decide, by decide⟩

/-- C4 (amended): the error returned by the rabbitmq `RemoteCall` is always
nil, one of the four sentinels, a wrapped publish error (request marshal or
transport failure) or a wrapped response-unmarshal error; the error returned
by the kafka `RemoteCall` is additionally allowed to be the raw context
cancellation error (when the caller's externally supplied context is
canceled before the per-call deadline) or the raw stored `call.err` value
(a field no code under src/ ever assigns); and whenever the publish
succeeds, response bodies unmarshal cleanly and — for the kafka client —
the context is not externally canceled and no `call.err` is stored, the
caller sees only nil or one of the four sentinel errors. -/
theorem remoteCall_error_classification (env : RemoteCallEnv)
    (kenv : KRemoteCallEnv) :
    ((remoteCall env).1 = none ∨
     (remoteCall env).1 = some RCError.connectionClosed ∨
     (remoteCall env).1 = some RCError.timeout ∨
     (remoteCall env).1 = some RCError.badHandler ∨
     (remoteCall env).1 = some RCError.internalServer ∨
     (∃ m, (remoteCall env).1 = some (RCError.publishErr m)) ∨
     (∃ m, (remoteCall env).1 = some (RCError.unmarshalErr m))) ∧
    (env.publishError = none → (∀ b, env.unmarshalError b = none) →
      ((remoteCall env).1 = none ∨
       (remoteCall env).1 = some RCError.connectionClosed ∨
       (remoteCall env).1 = some RCError.timeout ∨
       (remoteCall env).1 = some RCError.badHandler ∨
       (remoteCall env).1 = some RCError.internalServer)) ∧
    ((kafkaRemoteCall kenv).1 = none ∨
     (kafkaRemoteCall kenv).1 = some KRCError.connectionClosed ∨
     (kafkaRemoteCall kenv).1 = some KRCError.timeout ∨
     (kafkaRemoteCall kenv).1 = some KRCError.badHandler ∨
     (kafkaRemoteCall kenv).1 = some KRCError.internalServer ∨
     (∃ m, (kafkaRemoteCall kenv).1 = some (KRCError.ctxErr m)) ∨
     (∃ m, (kafkaRemoteCall kenv).1 = some (KRCError.callErr m)) ∨
     (∃ m, (kafkaRemoteCall kenv).1 = some (KRCError.publishErr m)) ∨
     (∃ m, (kafkaRemoteCall kenv).1 = some (KRCError.unmarshalErr m))) ∧
    (kenv.publishError = none → (∀ b, kenv.unmarshalError b = none) →
      (∀ m, kenv.wait ≠ KWaitOutcome.cancelled m) →
      (∀ call, kenv.wait = KWaitOutcome.delivered call → call.err = none) →
      ((kafkaRemoteCall kenv).1 = none ∨
       (kafkaRemoteCall kenv).1 = some KRCError.connectionClosed ∨
       (kafkaRemoteCall kenv).1 = some KRCError.timeout ∨
       (kafkaRemoteCall kenv).1 = some KRCError.badHandler ∨
       (kafkaRemoteCall kenv).1 = some KRCError.internalServer)) := by
  refine ⟨?_, ?_, ?_, ?_⟩
  · by_cases hs : (env.stopClosed && env.stopClosedAfterWait) = true
    · simp [remoteCall, hs]
    · rw [Bool.not_eq_true] at hs
      cases hp : env.publishError with
      | some m => simp [remoteCall, hs, hp]
      | none =>
        cases hw : env.wait with
        | timeout => simp [remoteCall, hs, hp, hw]
        | delivered status body =>
          by_cases h1 : status = Rmqrpc.Success
          · cases hu : env.unmarshalError body <;>
              simp [remoteCall, hs, hp, hw, h1, hu]
          · by_cases h2 : status = Rmqrpc.ErrBadHandlerMsg
            · simp +decide [remoteCall, hs, hp, hw, h1, h2]
            · by_cases h3 : status = Rmqrpc.ErrInternalServerMsg <;>
                simp +decide [remoteCall, hs, hp, hw, h1, h2, h3]
  · intro hp hu
    by_cases hs : (env.stopClosed && env.stopClosedAfterWait) = true
    · simp [remoteCall, hs]
    · rw [Bool.not_eq_true] at hs
      cases hw : env.wait with
      | timeout => simp [remoteCall, hs, hp, hw]
      | delivered status body =>
        by_cases h1 : status = Rmqrpc.Success
        · simp [remoteCall, hs, hp, hw, h1, hu body]
        · by_cases h2 : status = Rmqrpc.ErrBadHandlerMsg
          · simp +decide [remoteCall, hs, hp, hw, h1, h2]
          · by_cases h3 : status = Rmqrpc.ErrInternalServerMsg <;>
              simp +decide [remoteCall, hs, hp, hw, h1, h2, h3]
  · by_cases hs : kenv.stopClosed = true
    · simp [kafkaRemoteCall, hs]
    · rw [Bool.not_eq_true] at hs
      cases hp : kenv.publishError with
      | some m => simp [kafkaRemoteCall, hs, hp]
      | none =>
        cases hw : kenv.wait with
        | timeout => simp [kafkaRemoteCall, hs, hp, hw]
        | cancelled m => simp [kafkaRemoteCall, hs, hp, hw]
        | delivered call =>
          cases he : call.err with
          | some e => simp [kafkaRemoteCall, kafkaDecode, hs, hp, hw, he]
          | none =>
            by_cases h1 : call.status = Kafka.Success
            · cases hu : kenv.unmarshalError call.body <;>
                simp [kafkaRemoteCall, kafkaDecode, hs, hp, hw, he, h1, hu]
            · by_cases h2 : call.status = Kafka.ErrBadHandlerMsg
              · simp +decide [kafkaRemoteCall, kafkaDecode, hs, hp, hw, he,
                  h1, h2]
              · by_cases h3 : call.status = Kafka.ErrInternalServerMsg <;>
                  simp +decide [kafkaRemoteCall, kafkaDecode, hs, hp, hw, he,
                    h1, h2, h3]
  · intro hp hu hcancel hdeliv
    by_cases hs : kenv.stopClosed = true
    · simp [kafkaRemoteCall, hs]
    · rw [Bool.not_eq_true] at hs
      cases hw : kenv.wait with
      | timeout => simp [kafkaRemoteCall, hs, hp, hw]
      | cancelled m => exact absurd hw (hcancel m)
      | delivered call =>
        have he : call.err = none := hdeliv call hw
        by_cases h1 : call.status = Kafka.Success
        · simp [kafkaRemoteCall, kafkaDecode, hs, hp, hw, he, h1,
            hu call.body]
        · by_cases h2 : call.status = Kafka.ErrBadHandlerMsg
          · simp +decide [kafkaRemoteCall, kafkaDecode, hs, hp, hw, he,
              h1, h2]
          · by_cases h3 : call.status = Kafka.ErrInternalServerMsg <;>
              simp +decide [kafkaRemoteCall, kafkaDecode, hs, hp, hw, he,
                h1, h2, h3]

/-- Witness for C4's amended theorem at concrete environments for both
bindings with a clean publish, clean unmarshal, no external cancellation
and no stored call error: each outcome is nil or a sentinel. -/
theorem remoteCall_error_classification_witness :
    ((remoteCall ⟨false, false, none, WaitOutcome.delivered "success" "ok-body",
        fun _ => none⟩).1 = none ∨
     (remoteCall ⟨false, false, none, WaitOutcome.delivered "success" "ok-body",
        fun _ => none⟩).1 = some RCError.connectionClosed ∨
     (remoteCall ⟨false, false, none, WaitOutcome.delivered "success" "ok-body",
        fun _ => none⟩).1 = some RCError.timeout ∨
     (remoteCall ⟨false, false, none, WaitOutcome.delivered "success" "ok-body",
        fun _ => none⟩).1 = some RCError.badHandler ∨
     (remoteCall ⟨false, false, none, WaitOutcome.delivered "success" "ok-body",
        fun _ => none⟩).1 = some RCError.internalServer) ∧
    ((kafkaRemoteCall ⟨false, none,
        KWaitOutcome.delivered ⟨true, "success", "kb", none⟩,
        fun _ => none⟩).1 = none ∨
     (kafkaRemoteCall ⟨false, none,
        KWaitOutcome.delivered ⟨true, "success", "kb", none⟩,
        fun _ => none⟩).1 = some KRCError.connectionClosed ∨
     (kafkaRemoteCall ⟨false, none,
        KWaitOutcome.delivered ⟨true, "success", "kb", none⟩,
        fun _ => none⟩).1 = some KRCError.timeout ∨
     (kafkaRemoteCall ⟨false, none,
        KWaitOutcome.delivered ⟨true, "success", "kb", none⟩,
        fun _ => none⟩).1 = some KRCError.badHandler ∨
     (kafkaRemoteCall ⟨false, none,
        KWaitOutcome.delivered ⟨true, "success", "kb", none⟩,
        fun _ => none⟩).1 = some KRCError.internalServer) :=
  ⟨(remoteCall_error_classification
      ⟨false, false, none, WaitOutcome.delivered "success" "ok-body",
       fun _ => none⟩
      ⟨false, none, KWaitOutcome.delivered ⟨true, "success", "kb", none⟩,
       fun _ => none⟩).2.1 rfl (fun _ => rfl),
   (remoteCall_error_classification
      ⟨false, false, none, WaitOutcome.delivered "success" "ok-body",
       fun _ => none⟩
      ⟨false, none, KWaitOutcome.delivered ⟨true, "success", "kb", none⟩,
       fun _ => none⟩).2.2.2 rfl (fun _ => rfl)
     (fun _ h => KWaitOutcome.noConfusion h)
     (fun call h => by cases h; rfl)⟩

/-- C5 fails as stated on the rabbitmq server: when a handler succeeds but
its value fails `json.Marshal`, the failure is logged but the code falls
through (server.go lines 122-127) and publishes the reply with the `Success`
status and the nil body of the failed marshal — not an internal-error
response. -/
theorem c5_counterexample :
    (serveCall
        [("getHistory",
          fun _ => HandlerOutcome.success (MarshalResult.err
            "json: unsupported type"))]
        ⟨"cid-1", "getHistory", "req-body", "amq.client"⟩).published =
      some ⟨"amq.client", "cid-1", Rmqrpc.Success, none⟩ ∧
    Rmqrpc.Success ≠ Rmqrpc.ErrInternalServerMsg :=
  ⟨rfl, by decide⟩

/-- C5 (amended): the two bindings diverge on marshal failure — the kafka
server logs the failure and publishes an internal-error reply with nil body,
while the rabbitmq server logs the failure but then publishes a
success-status reply carrying the nil body of the failed marshal. -/
theorem marshalFailure_behavior
    (rrouter : List (String × (Delivery → HandlerOutcome))) (d : Delivery)
    (h : Delivery → HandlerOutcome) (e : String)
    (hlook : lookupA rrouter d.type = some h)
    (hh : h d = HandlerOutcome.success (MarshalResult.err e))
    (krouter : List (String × (KRecord → HandlerOutcome))) (r : KRecord)
    (kh : KRecord → HandlerOutcome) (ke : String)
    (hna : extractHeader r.headers "handler" ≠ "")
    (hnb : extractHeader r.headers "correlation_id" ≠ "")
    (hnc : extractHeader r.headers "reply_topic" ≠ "")
    (hklook : lookupA krouter (extractHeader r.headers "handler") = some kh)
    (hkh : kh r = HandlerOutcome.success (MarshalResult.err ke)) :
    (serveCall rrouter d).published =
      some ⟨d.replyTo, d.correlationId, Rmqrpc.Success, none⟩ ∧
    (serveCall rrouter d).logs ≠ [] ∧
    (kafkaServeCall krouter r).published =
      some (kafkaPublish (extractHeader r.headers "reply_topic")
        (extractHeader r.headers "correlation_id") none
        Kafka.ErrInternalServerMsg) ∧
    (kafkaServeCall krouter r).logs ≠ [] := by
  refine ⟨?_, ?_, ?_, ?_⟩ <;>
    simp [serveCall, kafkaServeCall, hlook, hh, hklook, hkh, hna, hnb, hnc]

/-- Witness for C5's amended theorem on concrete routers, a concrete request
delivery and a concrete request record. -/
theorem marshalFailure_behavior_witness :
    (serveCall
        [("h", fun _ => HandlerOutcome.success (MarshalResult.err "boom"))]
        ⟨"c1", "h", "b", "rt"⟩).published =
      some ⟨"rt", "c1", Rmqrpc.Success, none⟩ ∧
    (serveCall
        [("h", fun _ => HandlerOutcome.success (MarshalResult.err "boom"))]
        ⟨"c1", "h", "b", "rt"⟩).logs ≠ [] ∧
    (kafkaServeCall
        [("kh", fun _ => HandlerOutcome.success (MarshalResult.err "kboom"))]
        ⟨[("handler", "kh"), ("correlation_id", "c2"), ("reply_topic", "rp")],
         "v"⟩).published =
      some (kafkaPublish "rp" "c2" none Kafka.ErrInternalServerMsg) ∧
    (kafkaServeCall
        [("kh", fun _ => HandlerOutcome.success (MarshalResult.err "kboom"))]
        ⟨[("handler", "kh"), ("correlation_id", "c2"), ("reply_topic", "rp")],
         "v"⟩).logs ≠ [] :=
  marshalFailure_behavior
    [("h", fun _ => HandlerOutcome.success (MarshalResult.err "boom"))]
    ⟨"c1", "h", "b", "rt"⟩
    (fun _ => HandlerOutcome.success (MarshalResult.err "boom")) "boom"
    rfl rfl
    [("kh", fun _ => HandlerOutcome.success (MarshalResult.err "kboom"))]
    ⟨[("handler", "kh"), ("correlation_id", "c2"), ("reply_topic", "rp")], "v"⟩
    (fun _ => HandlerOutcome.success (MarshalResult.err "kboom")) "kboom"
    (by decide) (by decide) (by decide) rfl rfl

/-- C6 fails as stated on the rabbitmq server: a request delivery missing the
handler name and the correlation id (empty `Type` and `CorrelationId`) is
not logged-and-discarded — the empty handler name simply misses the router
and a `bad-handler` reply is published to the delivery's reply exchange. -/
theorem c6_counterexample :
    (serveCall
        [("echo", fun d => HandlerOutcome.success (MarshalResult.ok d.body))]
        ⟨"", "", "payload", "reply-ex"⟩).published =
      some ⟨"reply-ex", "", Rmqrpc.ErrBadHandlerMsg, none⟩ ∧
    (serveCall
        [("echo", fun d => HandlerOutcome.success (MarshalResult.ok d.body))]
        ⟨"", "", "payload", "reply-ex"⟩).published ≠ none :=
  ⟨rfl, by decide⟩

/-- C6 (amended): the kafka server validates the three request headers and,
when any is missing, logs the event and discards the record — no publish and
no handler invocation; the rabbitmq server performs no such validation: a
request missing the handler name goes through the ordinary router lookup and,
when the (empty) name is not routed, a `bad-handler` reply is published to
the request's reply destination instead of the request being discarded. -/
theorem missingHeaders_behavior
    (krouter : List (String × (KRecord → HandlerOutcome))) (r : KRecord)
    (hmiss : extractHeader r.headers "handler" = "" ∨
      extractHeader r.headers "correlation_id" = "" ∨
      extractHeader r.headers "reply_topic" = "")
    (rrouter : List (String × (Delivery → HandlerOutcome))) (d : Delivery)
    (hdt : d.type = "") (hlook : lookupA rrouter "" = none) :
    (kafkaServeCall krouter r).published = none ∧
    (kafkaServeCall krouter r).handlerInvoked = false ∧
    (kafkaServeCall krouter r).logs ≠ [] ∧
    (serveCall rrouter d).published =
      some ⟨d.replyTo, d.correlationId, Rmqrpc.ErrBadHandlerMsg, none⟩ := by
  have hl : lookupA rrouter d.type = none := by rw [hdt]; exact hlook
  have hk : kafkaServeCall krouter r =
      ⟨none, false,
       ["kafka_rpc server - Server - serveCall - missing required headers"]⟩ := by
    simp only [kafkaServeCall]
    rw [if_pos hmiss]
  refine ⟨by rw [hk], by rw [hk], by rw [hk]; simp, by simp [serveCall, hl]⟩

/-- Witness for C6's amended theorem: a kafka record carrying only a
correlation id, and a rabbitmq delivery with an empty handler name against a
router with one real handler. -/
theorem missingHeaders_behavior_witness :
    (kafkaServeCall [] ⟨[("correlation_id", "c9")], "v"⟩).published = none ∧
    (kafkaServeCall [] ⟨[("correlation_id", "c9")], "v"⟩).handlerInvoked =
      false ∧
    (kafkaServeCall [] ⟨[("correlation_id", "c9")], "v"⟩).logs ≠ [] ∧
    (serveCall
        [("echo", fun d => HandlerOutcome.success (MarshalResult.ok d.body))]
        ⟨"c9", "", "payload", "rex"⟩).published =
      some ⟨"rex", "c9", Rmqrpc.ErrBadHandlerMsg, none⟩ :=
  missingHeaders_behavior [] ⟨[("correlation_id", "c9")], "v"⟩ (Or.inl rfl)
    [("echo", fun d => HandlerOutcome.success (MarshalResult.ok d.body))]
    ⟨"c9", "", "payload", "rex"⟩ rfl rfl

/-- C7 (confirmed): a routed handler returning a non-nil error produces an
internal-error reply with nil body; the published reply is identical for any
two handlers failing with any two error messages — the handler's error text
never reaches the wire; and a client receiving the internal-error status
observes exactly `ErrInternalServer` with its response slot untouched. -/
theorem handlerError_isolation
    (router₁ router₂ : List (String × (Delivery → HandlerOutcome)))
    (d : Delivery) (h₁ h₂ : Delivery → HandlerOutcome) (e₁ e₂ : String)
    (hl₁ : lookupA router₁ d.type = some h₁)
    (hh₁ : h₁ d = HandlerOutcome.failure e₁)
    (hl₂ : lookupA router₂ d.type = some h₂)
    (hh₂ : h₂ d = HandlerOutcome.failure e₂)
    (body : String) (unm : String → Option String) :
    (serveCall router₁ d).published =
      some ⟨d.replyTo, d.correlationId, Rmqrpc.ErrInternalServerMsg, none⟩ ∧
    (serveCall router₁ d).published = (serveCall router₂ d).published ∧
    (remoteCall ⟨false, false, none,
        WaitOutcome.delivered Rmqrpc.ErrInternalServerMsg body, unm⟩).1 =
      some RCError.internalServer ∧
    (remoteCall ⟨false, false, none,
        WaitOutcome.delivered Rmqrpc.ErrInternalServerMsg body,
        unm⟩).2.responseWritten = false := by
  refine ⟨?_, ?_, ?_, ?_⟩
  · simp [serveCall, hl₁, hh₁]
  · simp [serveCall, hl₁, hh₁, hl₂, hh₂]
  · simp +decide [remoteCall]
  · simp +decide [remoteCall]

/-- Witness for C7 at two concrete single-handler routers failing with
different error messages, and a concrete client environment receiving the
internal-error status. -/
theorem handlerError_isolation_witness :
    (serveCall [("op", fun _ => HandlerOutcome.failure "disk full")]
        ⟨"c3", "op", "b", "rx"⟩).published =
      some ⟨"rx", "c3", Rmqrpc.ErrInternalServerMsg, none⟩ ∧
    (serveCall [("op", fun _ => HandlerOutcome.failure "disk full")]
        ⟨"c3", "op", "b", "rx"⟩).published =
      (serveCall [("op", fun _ => HandlerOutcome.failure "permission denied")]
        ⟨"c3", "op", "b", "rx"⟩).published ∧
    (remoteCall ⟨false, false, none,
        WaitOutcome.delivered Rmqrpc.ErrInternalServerMsg "rb",
        fun _ => none⟩).1 = some RCError.internalServer ∧
    (remoteCall ⟨false, false, none,
        WaitOutcome.delivered Rmqrpc.ErrInternalServerMsg "rb",
        fun _ => none⟩).2.responseWritten = false :=
  handlerError_isolation
    [("op", fun _ => HandlerOutcome.failure "disk full")]
    [("op", fun _ => HandlerOutcome.failure "permission denied")]
    ⟨"c3", "op", "b", "rx"⟩
    (fun _ => HandlerOutcome.failure "disk full")
    (fun _ => HandlerOutcome.failure "permission denied")
    "disk full" "permission denied" rfl rfl rfl rfl "rb" (fun _ => none)

/-- C8 fails as stated: the registry entry is not consumed "exactly once"
under duplicate deliveries — after the first matching delivery fires the
completion signal, a second delivery carrying the same correlation id before
the entry is removed finds the entry again and re-executes
`close(call.done)`, a runtime panic, instead of being ignored. -/
theorem c8_counterexample :
    getCall ⟨"cid-7", "success", "first-reply", ""⟩
        [("cid-7", ⟨false, "", ""⟩)] =
      .ok [("cid-7", ⟨true, "success", "first-reply"⟩)] ∧
    getCall ⟨"cid-7", "success", "dup-reply", ""⟩
        [("cid-7", ⟨true, "success", "first-reply"⟩)] = .error () :=
  ⟨rfl, rfl⟩

/-- C8 (amended): for a correlation id with a pending (not yet signalled)
registry entry, the first matching delivery writes that delivery's
status/body into the entry and fires its completion signal, leaving the key
set unchanged; the registry does not defend against duplicates — any further
delivery with the same correlation id arriving before the entry is removed
finds the already-signalled entry and panics re-closing the completion
channel, so at-most-once matching relies on the server publishing a single
reply per correlation id. -/
theorem getCall_first_writer
    (reg : List (String × PendingCall)) (cid : String) (call : PendingCall)
    (d d' : Delivery) (hc : lookupA reg cid = some call)
    (hdone : call.doneClosed = false)
    (h1 : d.correlationId = cid) (h2 : d'.correlationId = cid) :
    getCall d reg = .ok (updateA reg cid ⟨true, d.type, d.body⟩) ∧
    lookupA (updateA reg cid ⟨true, d.type, d.body⟩) cid =
      some ⟨true, d.type, d.body⟩ ∧
    keysA (updateA reg cid ⟨true, d.type, d.body⟩) = keysA reg ∧
    getCall d' (updateA reg cid ⟨true, d.type, d.body⟩) = .error () := by
  have hu : lookupA (updateA reg cid (⟨true, d.type, d.body⟩ : PendingCall))
      cid = some ⟨true, d.type, d.body⟩ :=
    lookupA_updateA_self reg cid _ call hc
  refine ⟨?_, hu, keysA_updateA reg cid _, ?_⟩
  · unfold getCall
    rw [h1, hc]
    simp [hdone]
  · unfold getCall
    rw [h2, hu]
    simp

/-- Witness for C8's amended theorem on a one-entry registry and two
deliveries sharing the correlation id. -/
theorem getCall_first_writer_witness :
    getCall ⟨"id1", "success", "r1", ""⟩
        [("id1", (⟨false, "", ""⟩ : PendingCall))] =
      .ok (updateA [("id1", (⟨false, "", ""⟩ : PendingCall))] "id1"
        (⟨true, "success", "r1"⟩ : PendingCall)) ∧
    lookupA (updateA [("id1", (⟨false, "", ""⟩ : PendingCall))] "id1"
        (⟨true, "success", "r1"⟩ : PendingCall)) "id1" =
      some ⟨true, "success", "r1"⟩ ∧
    keysA (updateA [("id1", (⟨false, "", ""⟩ : PendingCall))] "id1"
        (⟨true, "success", "r1"⟩ : PendingCall)) =
      keysA [("id1", (⟨false, "", ""⟩ : PendingCall))] ∧
    getCall ⟨"id1", "success", "r2", ""⟩
      (updateA [("id1", (⟨false, "", ""⟩ : PendingCall))] "id1"
        (⟨true, "success", "r1"⟩ : PendingCall)) =
      .error () :=
  getCall_first_writer [("id1", (⟨false, "", ""⟩ : PendingCall))] "id1"
    (⟨false, "", ""⟩ : PendingCall)
    (⟨"id1", "success", "r1", ""⟩ : Delivery)
    (⟨"id1", "success", "r2", ""⟩ : Delivery) rfl rfl rfl rfl

/-- C9 (confirmed): a request naming a handler absent from the router makes
the server publish a `bad-handler` reply with nil body without invoking any
handler, and a client receiving the bad-handler status returns exactly
`ErrBadHandler` with its response slot untouched. -/
theorem badHandler_path
    (router : List (String × (Delivery → HandlerOutcome))) (d : Delivery)
    (hmiss : lookupA router d.type = none)
    (body : String) (unm : String → Option String) :
    (serveCall router d).published =
      some ⟨d.replyTo, d.correlationId, Rmqrpc.ErrBadHandlerMsg, none⟩ ∧
    (serveCall router d).handlerInvoked = false ∧
    (remoteCall ⟨false, false, none,
        WaitOutcome.delivered Rmqrpc.ErrBadHandlerMsg body, unm⟩).1 =
      some RCError.badHandler ∧
    (remoteCall ⟨false, false, none,
        WaitOutcome.delivered Rmqrpc.ErrBadHandlerMsg body,
        unm⟩).2.responseWritten = false := by
  refine ⟨?_, ?_, ?_, ?_⟩
  · simp [serveCall, hmiss]
  · simp [serveCall, hmiss]
  · simp +decide [remoteCall]
  · simp +decide [remoteCall]

/-- Witness for C9 on the empty router and a concrete request delivery. -/
theorem badHandler_path_witness :
    (serveCall [] ⟨"c5", "nosuch", "b", "rx"⟩).published =
      some ⟨"rx", "c5", Rmqrpc.ErrBadHandlerMsg, none⟩ ∧
    (serveCall [] ⟨"c5", "nosuch", "b", "rx"⟩).handlerInvoked = false ∧
    (remoteCall ⟨false, false, none,
        WaitOutcome.delivered Rmqrpc.ErrBadHandlerMsg "bb",
        fun _ => none⟩).1 = some RCError.badHandler ∧
    (remoteCall ⟨false, false, none,
        WaitOutcome.delivered Rmqrpc.ErrBadHandlerMsg "bb",
        fun _ => none⟩).2.responseWritten = false :=
  badHandler_path [] ⟨"c5", "nosuch", "b", "rx"⟩ rfl "bb" (fun _ => none)

/-- C10 (confirmed): a kafka reply record matching a pending correlation id
but carrying no `status` header defaults the status to `Success`: the
registry entry is completed with status `success` and the record's value as
body, and the client's decode stage then unmarshals that body into the
caller's response slot and returns nil, exactly as for a successful call. -/
theorem missingStatus_defaults_success
    (reg : List (String × KPendingCall)) (cid : String) (r : KRecord)
    (hcid : lookupA r.headers "correlation_id" = some cid) (hne : cid ≠ "")
    (hst : lookupA r.headers "status" = none)
    (hpend : lookupA reg cid = some freshKCall)
    (unm : String → Option String) (hunm : unm r.value = none) :
    handleResponse r reg =
      .ok (updateA reg cid ⟨true, Kafka.Success, r.value, none⟩) ∧
    lookupA (updateA reg cid ⟨true, Kafka.Success, r.value, none⟩) cid =
      some ⟨true, Kafka.Success, r.value, none⟩ ∧
    kafkaDecode ⟨true, Kafka.Success, r.value, none⟩ unm = (none, true) := by
  refine ⟨?_, lookupA_updateA_self reg cid _ _ hpend, ?_⟩
  · simp only [handleResponse, hcid, Option.getD_some]
    rw [if_neg hne, hpend]
    simp [hst, freshKCall]
  · simp [kafkaDecode, hunm]

/-- Witness for C10 on a one-entry registry and a status-less reply
record. -/
theorem missingStatus_defaults_success_witness :
    handleResponse ⟨[("correlation_id", "c10")], "reply-payload"⟩
        [("c10", freshKCall)] =
      .ok (updateA [("c10", freshKCall)] "c10"
        ⟨true, Kafka.Success, "reply-payload", none⟩) ∧
    lookupA (updateA [("c10", freshKCall)] "c10"
        ⟨true, Kafka.Success, "reply-payload", none⟩) "c10" =
      some ⟨true, Kafka.Success, "reply-payload", none⟩ ∧
    kafkaDecode ⟨true, Kafka.Success, "reply-payload", none⟩ (fun _ => none) =
      (none, true) :=
  missingStatus_defaults_success [("c10", freshKCall)] "c10"
    ⟨[("correlation_id", "c10")], "reply-payload"⟩ rfl (by decide) rfl rfl
    (fun _ => none) rfl

end GoPkgs
